import Mathlib

/-!
Verification of the KOBACO influencer ad-cost valuation engine
(`cost_calculator.py`, `brand_safety_analyzer.py`).

The Python module works on exact small integers and IEEE doubles; here all
numbers are embedded as exact rationals (ℚ).  the Python `int(x)` truncation
toward zero is `pyInt`, and `round(x, n)` (banker rounding) is `pyRound3`
/ `pyRound1`.  Optional arguments (`recent_90day_avg_views`,
`channel_age_days`) are `Option ℚ`, with Python falsiness (`None` or `0`)
modelled explicitly at each use site.  Purely descriptive dictionary fields
(descriptions, emojis, colors, status strings) carry no logic downstream and
are omitted from the embedded records; numeric fields and classification
labels are kept.
-/

namespace Kobaco

/-- Python `int(x)`: truncation toward zero. -/
def pyInt (q : ℚ) : ℤ := if 0 ≤ q then ⌊q⌋ else ⌈q⌉

/-- Round a rational to the nearest integer, ties to even
(the Python `round` tie-breaking). -/
def roundHalfEven (q : ℚ) : ℤ :=
  let f := ⌊q⌋
  let r := q - (f : ℚ)
  if r < 1/2 then f
  else if 1/2 < r then f + 1
  else if f % 2 = 0 then f else f + 1

/-- Python `round(x, 3)`. -/
def pyRound3 (q : ℚ) : ℚ := (roundHalfEven (q * 1000) : ℚ) / 1000

/-- Python `round(x, 1)`. -/
def pyRound1 (q : ℚ) : ℚ := (roundHalfEven (q * 10) : ℚ) / 10

/-- Result of `calculate_channel_health` (numeric fields and level label). -/
structure ChannelHealth where
  ratio : ℚ
  level : String
  multiplier : ℚ
deriving Repr, DecidableEq

/-- The 8-band health table of `calculate_channel_health`, keyed on the
already-computed ratio. -/
def healthBands (ratio : ℚ) : ChannelHealth :=
  if 30 ≤ ratio then ⟨ratio, "초건강", 12/10⟩
  else if 20 ≤ ratio then ⟨ratio, "매우 건강", 11/10⟩
  else if 15 ≤ ratio then ⟨ratio, "건강", 1⟩
  else if 10 ≤ ratio then ⟨ratio, "정상", 1⟩
  else if 7 ≤ ratio then ⟨ratio, "약간 약화", 8/10⟩
  else if 5 ≤ ratio then ⟨ratio, "약화", 7/10⟩
  else if 3 ≤ ratio then ⟨ratio, "죽어감", 5/10⟩
  else ⟨ratio, "죽음", 3/10⟩

/-- `calculate_channel_health(subscriber_count, avg_views)`:
views/subscriber ratio (percent, 0 when there are no subscribers) mapped
through the 8-band health table. -/
def calculate_channel_health (subscriber_count avg_views : ℚ) : ChannelHealth :=
  healthBands
    (if subscriber_count = 0 then 0 else avg_views / subscriber_count * 100)

/-- Result of `calculate_growth_multiplier` (numeric fields). -/
structure GrowthInfo where
  multiplier : ℚ
  growth_rate : ℚ
deriving Repr, DecidableEq

/-- `calculate_growth_multiplier(avg_views, recent_90day_avg_views)`.
the Python `if not recent_90day_avg_views or avg_views == 0` treats both
`None` and `0` as missing recent data. -/
def calculate_growth_multiplier (avg_views : ℚ)
    (recent_90day_avg_views : Option ℚ) : GrowthInfo :=
  match recent_90day_avg_views with
  | none => ⟨1, 0⟩
  | some r =>
    if r = 0 ∨ avg_views = 0 then ⟨1, 0⟩
    else
      let growth_rate := (r - avg_views) / avg_views * 100
      if 50 ≤ growth_rate then ⟨115/100, pyRound1 growth_rate⟩
      else if 20 ≤ growth_rate then ⟨110/100, pyRound1 growth_rate⟩
      else if 10 ≤ growth_rate then ⟨105/100, pyRound1 growth_rate⟩
      else if -10 ≤ growth_rate then ⟨1, pyRound1 growth_rate⟩
      else if -20 ≤ growth_rate then ⟨95/100, pyRound1 growth_rate⟩
      else ⟨90/100, pyRound1 growth_rate⟩

/-- Fallback branch of `calculate_consistency_multiplier` when the channel
age is unknown (raw video-count bands). -/
def consistencyFallback (video_count : ℚ) : ℚ :=
  if 200 ≤ video_count then 105/100
  else if 50 ≤ video_count then 1
  else 95/100

/-- `calculate_consistency_multiplier(video_count, channel_age_days)`.
the Python `if channel_age_days and channel_age_days > 0` requires the age to
be present, truthy and positive; otherwise the video-count fallback runs. -/
def calculate_consistency_multiplier (video_count : ℚ)
    (channel_age_days : Option ℚ) : ℚ :=
  match channel_age_days with
  | some d =>
    if 0 < d then
      let weeks := d / 7
      let uploads_per_week := if 0 < weeks then video_count / weeks else 0
      if 2 ≤ uploads_per_week then 105/100
      else if 1 ≤ uploads_per_week then 1
      else if 1/2 ≤ uploads_per_week then 95/100
      else 90/100
    else consistencyFallback video_count
  | none => consistencyFallback video_count

/-- Result of `calculate_loyalty_multiplier` (numeric fields). -/
structure LoyaltyInfo where
  multiplier : ℚ
  comment_view_ratio : ℚ
deriving Repr, DecidableEq

set_option linter.unusedVariables false in
/-- `calculate_loyalty_multiplier(avg_views, avg_comments, subscriber_count)`:
comment/view ratio (percent) mapped through the loyalty bands; neutral when
`avg_views == 0`.  The `subscriber_count` parameter is accepted but unused,
exactly as in the source. -/
def calculate_loyalty_multiplier (avg_views avg_comments
    subscriber_count : ℚ) : LoyaltyInfo :=
  if avg_views = 0 then ⟨1, 0⟩
  else
    let comment_view_ratio := avg_comments / avg_views * 100
    if 1/2 ≤ comment_view_ratio then ⟨110/100, pyRound3 comment_view_ratio⟩
    else if 3/10 ≤ comment_view_ratio then ⟨105/100, pyRound3 comment_view_ratio⟩
    else if 1/10 ≤ comment_view_ratio then ⟨1, pyRound3 comment_view_ratio⟩
    else ⟨97/100, pyRound3 comment_view_ratio⟩

/-- Result of `calculate_total_premium`. -/
structure PremiumData where
  total_multiplier : ℚ
  health : ChannelHealth
  growth : GrowthInfo
  consistency : ℚ
  loyalty : LoyaltyInfo
deriving Repr, DecidableEq

/-- `calculate_total_premium(...)`: product of the four factor multipliers,
rounded to three decimals. -/
def calculate_total_premium (subscriber_count avg_views : ℚ)
    (recent_90day_avg_views : Option ℚ) (video_count avg_comments : ℚ)
    (channel_age_days : Option ℚ) : PremiumData :=
  let health := calculate_channel_health subscriber_count avg_views
  let growth := calculate_growth_multiplier avg_views recent_90day_avg_views
  let consistency := calculate_consistency_multiplier video_count channel_age_days
  let loyalty := calculate_loyalty_multiplier avg_views avg_comments subscriber_count
  let total_multiplier :=
    health.multiplier * growth.multiplier * consistency * loyalty.multiplier
  ⟨pyRound3 total_multiplier, health, growth, consistency, loyalty⟩

/-- `get_influencer_tier(subscriber_count)`: tier name and range label. -/
def get_influencer_tier (subscriber_count : ℚ) : String × String :=
  if subscriber_count < 10000 then ("나노 (Nano)", "1K-10K")
  else if subscriber_count < 100000 then ("마이크로 (Micro)", "10K-100K")
  else if subscriber_count < 500000 then ("미드티어 (Mid-tier)", "100K-500K")
  else if subscriber_count < 1000000 then ("매크로 (Macro)", "500K-1M")
  else ("메가 (Mega)", "1M+")

/-- Tier floor table of `estimate_ad_cost_global` STEP 3 (v4.2 constants). -/
def tierBase (subscriber_count : ℚ) : ℤ :=
  if subscriber_count < 10000 then 350000
  else if subscriber_count < 100000 then 2000000
  else if subscriber_count < 500000 then 4000000
  else if subscriber_count < 1000000 then 10000000
  else 15000000

/-- Engagement-rate multiplier and level label
(`estimate_ad_cost_global` STEP 5). -/
def engagementStep (engagement_rate : ℚ) : ℚ × String :=
  if 10 ≤ engagement_rate then (15/10, "최상 (10%+)")
  else if 7 ≤ engagement_rate then (13/10, "매우 높음 (7-10%)")
  else if 5 ≤ engagement_rate then (12/10, "높음 (5-7%)")
  else if 3 ≤ engagement_rate then (11/10, "양호 (3-5%)")
  else if 2 ≤ engagement_rate then (1, "보통 (2-3%)")
  else if 1 ≤ engagement_rate then (9/10, "낮음 (1-2%)")
  else (85/100, "매우 낮음 (<1%)")

/-- Comment/like quality multiplier, level label and raw ratio
(`estimate_ad_cost_global` STEP 6); the guarded branch runs only when
`avg_likes > 0`, otherwise the initial values (1.0, normal, ratio 0) stand. -/
def qualityStep (avg_likes avg_comments : ℚ) : ℚ × String × ℚ :=
  if 0 < avg_likes then
    let comment_like_ratio := avg_comments / avg_likes
    if 15/100 ≤ comment_like_ratio then
      (11/10, "대화형 커뮤니티 (우수)", comment_like_ratio)
    else if comment_like_ratio < 5/100 then
      (9/10, "이벤트형 (저품질)", comment_like_ratio)
    else (1, "정상 범위", comment_like_ratio)
  else (1, "정상 범위", 0)

/-- Result record of `estimate_ad_cost_global`. -/
structure GlobalCost where
  base_cost_cpm : ℤ
  recent_cpm_cost : ℤ
  tier_base : ℤ
  base_cost : ℤ
  engagement_rate : ℚ
  engagement_multiplier : ℚ
  engagement_level : String
  comment_like_ratio : ℚ
  quality_multiplier : ℚ
  quality_level : String
  final_engagement_multiplier : ℚ
  final_cost : ℤ
  cpm_used : ℚ
deriving Repr, DecidableEq

/-- STEP 2 of `estimate_ad_cost_global`: the recent-90-day CPM cost, as an
untruncated rational.  the Python guard
`if recent_90day_avg_views and recent_90day_avg_views > 0` requires the
optional argument to be present, truthy and positive, else the cost stays 0. -/
def recentCpmCost (recent_90day_avg_views : Option ℚ) (cpm_krw : ℚ) : ℚ :=
  match recent_90day_avg_views with
  | some r => if 0 < r then r / 1000 * cpm_krw else 0
  | none => 0

/-- STEP 4 of `estimate_ad_cost_global`: the base cost before truncation.
The three-way max is taken only when `recent_cpm_cost > 0`. -/
def baseCostQ (subscriber_count avg_views : ℚ)
    (recent_90day_avg_views : Option ℚ) (cpm_krw : ℚ) : ℚ :=
  let base_cost_cpm := avg_views / 1000 * cpm_krw
  let recent_cpm_cost := recentCpmCost recent_90day_avg_views cpm_krw
  if 0 < recent_cpm_cost then
    max (max base_cost_cpm recent_cpm_cost) ((tierBase subscriber_count : ℤ) : ℚ)
  else max base_cost_cpm ((tierBase subscriber_count : ℤ) : ℚ)

/-- `estimate_ad_cost_global(...)` (v4.2 CPM-based pipeline).
The record stores truncated copies while `final_cost` is computed from the
untruncated `base_cost`. -/
def estimate_ad_cost_global (subscriber_count avg_views engagement_rate
    avg_likes avg_comments : ℚ) (recent_90day_avg_views : Option ℚ)
    (cpm_krw : ℚ) : GlobalCost :=
  let base_cost_cpm := avg_views / 1000 * cpm_krw
  let recent_cpm_cost := recentCpmCost recent_90day_avg_views cpm_krw
  let tier_base := tierBase subscriber_count
  let base_cost := baseCostQ subscriber_count avg_views
    recent_90day_avg_views cpm_krw
  let engagement := engagementStep engagement_rate
  let quality := qualityStep avg_likes avg_comments
  let final_engagement_multiplier := engagement.1 * quality.1
  { base_cost_cpm := pyInt base_cost_cpm
    recent_cpm_cost := pyInt recent_cpm_cost
    tier_base := tier_base
    base_cost := pyInt base_cost
    engagement_rate := engagement_rate
    engagement_multiplier := engagement.1
    engagement_level := engagement.2
    comment_like_ratio := pyRound3 quality.2.2
    quality_multiplier := quality.1
    quality_level := quality.2.1
    final_engagement_multiplier := pyRound3 final_engagement_multiplier
    final_cost := pyInt (base_cost * final_engagement_multiplier)
    cpm_used := cpm_krw }

/-- Result record of `estimate_ad_cost_korea`. -/
structure KoreaCost where
  base_cost_cpm : ℤ
  recent_cpm_cost : ℤ
  tier_base : ℤ
  base_cost : ℤ
  engagement_rate : ℚ
  engagement_multiplier : ℚ
  engagement_level : String
  comment_like_ratio : ℚ
  quality_multiplier : ℚ
  quality_level : String
  final_engagement_multiplier : ℚ
  channel_premium_multiplier : ℚ
  premium_details : PremiumData
  global_final_cost : ℤ
  korea_adjustment : ℚ
  final_cost : ℤ
  min_cost : ℤ
  max_cost : ℤ
  cpm_used : ℤ
deriving Repr, DecidableEq

/-- `estimate_ad_cost_korea(...)` (v4.4): global estimate, then channel
premium (STEP 10), Korea adjustment (STEP 11), final cost (STEP 12) and the
±15% range (STEP 13); the component fields of the returned record are the
global-stage values scaled by `korea_adjustment` and truncated. -/
def estimate_ad_cost_korea (subscriber_count avg_views engagement_rate
    avg_likes avg_comments : ℚ) (recent_90day_avg_views : Option ℚ)
    (video_count : ℚ) (channel_age_days : Option ℚ)
    (cpm_krw : ℚ) : KoreaCost :=
  let global_cost := estimate_ad_cost_global subscriber_count avg_views
    engagement_rate avg_likes avg_comments recent_90day_avg_views cpm_krw
  let premium_data := calculate_total_premium subscriber_count avg_views
    recent_90day_avg_views video_count avg_comments channel_age_days
  let channel_premium_multiplier := premium_data.total_multiplier
  let korea_adjustment : ℚ :=
    if subscriber_count < 100000 then 85/100 else 75/100
  let global_final_cost :=
    pyInt ((global_cost.final_cost : ℚ) * channel_premium_multiplier)
  let final_cost := pyInt ((global_final_cost : ℚ) * korea_adjustment)
  let min_cost := pyInt ((final_cost : ℚ) * (85/100))
  let max_cost := pyInt ((final_cost : ℚ) * (115/100))
  { base_cost_cpm := pyInt ((global_cost.base_cost_cpm : ℚ) * korea_adjustment)
    recent_cpm_cost := pyInt ((global_cost.recent_cpm_cost : ℚ) * korea_adjustment)
    tier_base := pyInt ((global_cost.tier_base : ℚ) * korea_adjustment)
    base_cost := pyInt ((global_cost.base_cost : ℚ) * korea_adjustment)
    engagement_rate := global_cost.engagement_rate
    engagement_multiplier := global_cost.engagement_multiplier
    engagement_level := global_cost.engagement_level
    comment_like_ratio := global_cost.comment_like_ratio
    quality_multiplier := global_cost.quality_multiplier
    quality_level := global_cost.quality_level
    final_engagement_multiplier := global_cost.final_engagement_multiplier
    channel_premium_multiplier := channel_premium_multiplier
    premium_details := premium_data
    global_final_cost := global_final_cost
    korea_adjustment := korea_adjustment
    final_cost := final_cost
    min_cost := min_cost
    max_cost := max_cost
    cpm_used := pyInt (global_cost.cpm_used * korea_adjustment) }

/-!
Brand-safety adapter (`brand_safety_analyzer.analyze_with_gemini`).

The external generative call is modelled as an outcome value: either it
produced a response text or it raised an exception (any exception inside the
`try` block — prompt assembly, the remote call, JSON decoding — is caught by
the single `except` clause, which returns an error payload instead).  JSON
decoding (`json.loads`) is modelled by an arbitrary partial parse function:
`none` stands for a `JSONDecodeError` being raised.  The early `return None`
when the Gemini library or API key is unavailable happens before the
generator is ever invoked, so it is outside the quantification over
generator behaviours.
-/

/-- Behaviour of the external narrative generator on one call. -/
inductive GenOutcome where
  | text (s : String)
  | raises (msg : String)
deriving Repr, DecidableEq

/-- What the adapter hands back to the valuation caller: either the parsed
report or the `{error: message}` payload built by the `except` clause. -/
inductive AnalysisResult (Report : Type) where
  | report (r : Report)
  | errorPayload (msg : String)

/-- Literal for a fenced JSON block opener. -/
def fenceJson : String := "```json"

/-- Plain code-fence literal. -/
def fence : String := "```"

/-- Error message standing for the Python `JSONDecodeError` string. -/
def jsonErrorMsg : String := "JSONDecodeError"

/-- The fence-stripping steps applied to `response.text` before parsing:
strip whitespace, drop a leading ```json (7 chars) fence marker, drop a
leading ``` (3 chars), drop a trailing ```. -/
def stripCodeFence (raw : String) : String :=
  let t0 := raw.trim
  let t1 := if t0.startsWith fenceJson then t0.drop 7 else t0
  let t2 := if t1.startsWith fence then t1.drop 3 else t1
  if t2.endsWith fence then t2.dropRight 3 else t2

/-- `analyze_with_gemini`, restricted to the part downstream of the
generator call: an exception anywhere is converted to an error payload,
otherwise the fence-stripped, re-stripped text is parsed and a parse
failure is likewise converted to an error payload. -/
def analyze_with_gemini (Report : Type) (parse : String → Option Report)
    (gen : GenOutcome) : AnalysisResult Report :=
  match gen with
  | .raises msg => .errorPayload msg
  | .text s =>
    match parse (stripCodeFence s).trim with
    | some r => .report r
    | none => .errorPayload jsonErrorMsg

/-!
Specification-side definitions used to compare the code against the claim
wording, plus small order-theoretic helpers for the tier classifier.
-/

/-- Tier floor as the claim words it: fixed table keyed by subscriber
bracket. -/
def specTierFloor (subscriberCount : ℚ) : ℚ :=
  if subscriberCount < 10000 then 350000
  else if subscriberCount < 100000 then 2000000
  else if subscriberCount < 500000 then 4000000
  else if subscriberCount < 1000000 then 10000000
  else 15000000

/-- Base cost as the claim words it: the maximum of `baseCostCpm`, the
recent CPM cost (included only when `recent90DayAvgViews` is present and
positive) and the tier floor. -/
def specBaseCost (subscriberCount avgViews : ℚ) (recent : Option ℚ)
    (cpmRate : ℚ) : ℚ :=
  match recent with
  | some r =>
    if 0 < r then
      max (avgViews / 1000 * cpmRate)
        (max (r / 1000 * cpmRate) (specTierFloor subscriberCount))
    else max (avgViews / 1000 * cpmRate) (specTierFloor subscriberCount)
  | none => max (avgViews / 1000 * cpmRate) (specTierFloor subscriberCount)

/-- Position of a tier of a subscriber count in the ascending bracket order
(0 = Nano .. 4 = Mega). -/
def tierIndex (subscriber_count : ℚ) : ℕ :=
  if subscriber_count < 10000 then 0
  else if subscriber_count < 100000 then 1
  else if subscriber_count < 500000 then 2
  else if subscriber_count < 1000000 then 3
  else 4

/-- The five tier labels in ascending bracket order. -/
def tierTable : ℕ → String × String
  | 0 => ("나노 (Nano)", "1K-10K")
  | 1 => ("마이크로 (Micro)", "10K-100K")
  | 2 => ("미드티어 (Mid-tier)", "100K-500K")
  | 3 => ("매크로 (Macro)", "500K-1M")
  | _ => ("메가 (Mega)", "1M+")

/-!  Helper lemmas shared by several claim proofs. -/

/-- `pyInt` agrees with the floor on non-negative rationals. -/
theorem pyInt_eq_floor {q : ℚ} (h : 0 ≤ q) : pyInt q = ⌊q⌋ := by
  simp [pyInt, h]

/-- The engagement-rate multiplier is at least 0.85. -/
theorem engagementStep_lb (r : ℚ) : 85/100 ≤ (engagementStep r).1 := by
  simp only [engagementStep]
  split_ifs <;> norm_num

/-- The comment/like quality multiplier is at least 0.9. -/
theorem qualityStep_lb (l c : ℚ) : 9/10 ≤ (qualityStep l c).1 := by
  simp only [qualityStep]
  split_ifs <;> norm_num

/-- Every tier floor of the claim-side table is at least 350,000. -/
theorem specTierFloor_lb (s : ℚ) : 350000 ≤ specTierFloor s := by
  simp only [specTierFloor]
  split_ifs <;> norm_num

/-- The code-side tier floor coincides with the claim-side table. -/
theorem tierBase_eq_specTierFloor (s : ℚ) :
    ((tierBase s : ℤ) : ℚ) = specTierFloor s := by
  simp only [tierBase, specTierFloor]
  split_ifs <;> norm_num

/-!  Claim theorems. -/

/-- C9: the full pricing pipeline is deterministic — the regional estimator,
the global estimator and the premium aggregator are pure functions of their
arguments, so calling any of them twice with identical arguments yields
identical records. -/
theorem C9_pipeline_deterministic (s v er l c vc cpm : ℚ)
    (rec age : Option ℚ) :
    estimate_ad_cost_korea s v er l c rec vc age cpm =
      estimate_ad_cost_korea s v er l c rec vc age cpm ∧
    estimate_ad_cost_global s v er l c rec cpm =
      estimate_ad_cost_global s v er l c rec cpm ∧
    calculate_total_premium s v rec vc c age =
      calculate_total_premium s v rec vc c age ∧
    calculate_channel_health s v = calculate_channel_health s v ∧
    get_influencer_tier s = get_influencer_tier s :=
  ⟨rfl, rfl, rfl, rfl, rfl⟩

/-- C1 (counterexample): at subscriberCount=5,000, avgViews=100,000,
engagementRate=5.5, avgLikes=400, avgComments=40, no 90-day data, default
videoCount=10, cpm=30,000, the CPM path is binding (baseCost=3,000,000 is
not the 350,000 tier floor), yet the regional final cost is 3,384,360 and
not floor(globalFinalCost * 0.85) = 3,060,000: the premium composite
(1.106) was applied even though the CPM path won. -/
theorem C1_counterexample :
    (estimate_ad_cost_global 5000 100000 (55/10) 400 40 none 30000).base_cost ≠
      (estimate_ad_cost_global 5000 100000 (55/10) 400 40 none 30000).tier_base ∧
    (estimate_ad_cost_korea 5000 100000 (55/10) 400 40 none 10 none
        30000).final_cost ≠
      ⌊((estimate_ad_cost_global 5000 100000 (55/10) 400 40 none
          30000).final_cost : ℚ) * (85/100)⌋ := by
  constructor
  · norm_num [estimate_ad_cost_global, recentCpmCost, baseCostQ, tierBase, engagementStep, qualityStep,
      pyInt, pyRound3, roundHalfEven]
  · norm_num [estimate_ad_cost_korea, estimate_ad_cost_global, recentCpmCost, baseCostQ, tierBase,
      engagementStep, qualityStep, calculate_total_premium,
      calculate_channel_health, healthBands, calculate_growth_multiplier,
      calculate_consistency_multiplier, consistencyFallback,
      calculate_loyalty_multiplier, pyInt, pyRound3, roundHalfEven]

/-- C1 (amended): the regional (Korea) estimator applies the
channel-premium composite multiplier unconditionally — whether the tier
floor or the CPM curve was binding in the global stage — and the final cost
is trunc(trunc(globalFinalCost * premiumComposite) * regionAdjustment). -/
theorem C1_amended_premium_always (s v er l c vc cpm : ℚ)
    (rec age : Option ℚ) :
    (estimate_ad_cost_korea s v er l c rec vc age cpm).final_cost =
      pyInt ((pyInt (((estimate_ad_cost_global s v er l c rec cpm).final_cost : ℚ) *
        (calculate_total_premium s v rec vc c age).total_multiplier) : ℚ) *
        (estimate_ad_cost_korea s v er l c rec vc age cpm).korea_adjustment) :=
  rfl

/-- C6: every ratio in the pipeline is guarded against a zero denominator:
`avgLikes = 0` leaves the quality branch untaken, so the reported
comment/like ratio is 0 and the quality multiplier is exactly 1.0 (the
normal-range label, not the low-quality 0.9 branch); `avgViews = 0` makes
the growth and loyalty evaluators return the neutral multiplier 1.0.  All
embedded functions are total, so no division error can be raised. -/
theorem C6_zero_denominator_guards :
    (∀ s v er c cpm : ℚ, ∀ rec : Option ℚ,
      (estimate_ad_cost_global s v er 0 c rec cpm).comment_like_ratio = 0 ∧
      (estimate_ad_cost_global s v er 0 c rec cpm).quality_multiplier = 1 ∧
      (estimate_ad_cost_global s v er 0 c rec cpm).quality_level = "정상 범위") ∧
    (∀ rec : Option ℚ, (calculate_growth_multiplier 0 rec).multiplier = 1) ∧
    (∀ c s : ℚ, (calculate_loyalty_multiplier 0 c s).multiplier = 1 ∧
      (calculate_loyalty_multiplier 0 c s).comment_view_ratio = 0) := by
  refine ⟨?_, ?_, ?_⟩
  · intro s v er c cpm rec
    have hq : qualityStep 0 c = (1, "정상 범위", 0) := by
      simp [qualityStep]
    exact ⟨by simp [estimate_ad_cost_global, hq, pyRound3, roundHalfEven],
      by simp [estimate_ad_cost_global, hq],
      by simp [estimate_ad_cost_global, hq]⟩
  · intro rec
    rcases rec with _ | r <;> simp [calculate_growth_multiplier]
  · intro c s
    constructor <;> simp [calculate_loyalty_multiplier]

/-- C7: in every regional estimate with a non-negative final cost, the range
ends are minCost = floor(finalCost*0.85) and maxCost = floor(finalCost*1.15),
the final cost is trunc(globalFinalCost-with-premium * regionAdjustment),
and the region adjustment is 0.85 below 100,000 subscribers and 0.75
otherwise. -/
theorem C7_cost_range (s v er l c vc cpm : ℚ) (rec age : Option ℚ)
    (hfin : 0 ≤ (estimate_ad_cost_korea s v er l c rec vc age cpm).final_cost) :
    (estimate_ad_cost_korea s v er l c rec vc age cpm).min_cost =
      ⌊((estimate_ad_cost_korea s v er l c rec vc age cpm).final_cost : ℚ) *
        (85/100)⌋ ∧
    (estimate_ad_cost_korea s v er l c rec vc age cpm).max_cost =
      ⌊((estimate_ad_cost_korea s v er l c rec vc age cpm).final_cost : ℚ) *
        (115/100)⌋ ∧
    (estimate_ad_cost_korea s v er l c rec vc age cpm).final_cost =
      pyInt (((estimate_ad_cost_korea s v er l c rec vc age
          cpm).global_final_cost : ℚ) *
        (estimate_ad_cost_korea s v er l c rec vc age cpm).korea_adjustment) ∧
    (estimate_ad_cost_korea s v er l c rec vc age cpm).korea_adjustment =
      (if s < 100000 then 85/100 else 75/100) := by
  have h0 : (0 : ℚ) ≤
      ((estimate_ad_cost_korea s v er l c rec vc age cpm).final_cost : ℚ) := by
    exact_mod_cast hfin
  refine ⟨?_, ?_, rfl, rfl⟩
  · have hdef : (estimate_ad_cost_korea s v er l c rec vc age cpm).min_cost =
        pyInt (((estimate_ad_cost_korea s v er l c rec vc age
          cpm).final_cost : ℚ) * (85/100)) := rfl
    rw [hdef, pyInt_eq_floor (mul_nonneg h0 (by norm_num))]
  · have hdef : (estimate_ad_cost_korea s v er l c rec vc age cpm).max_cost =
        pyInt (((estimate_ad_cost_korea s v er l c rec vc age
          cpm).final_cost : ℚ) * (115/100)) := rfl
    rw [hdef, pyInt_eq_floor (mul_nonneg h0 (by norm_num))]

/-- Witness for C7 at the worked micro-channel scenario. -/
theorem C7_cost_range_witness :
    (estimate_ad_cost_korea 50000 8000 (55/10) 400 40 none 10 none
        30000).min_cost =
      ⌊((estimate_ad_cost_korea 50000 8000 (55/10) 400 40 none 10 none
          30000).final_cost : ℚ) * (85/100)⌋ ∧
    (estimate_ad_cost_korea 50000 8000 (55/10) 400 40 none 10 none
        30000).max_cost =
      ⌊((estimate_ad_cost_korea 50000 8000 (55/10) 400 40 none 10 none
          30000).final_cost : ℚ) * (115/100)⌋ ∧
    (estimate_ad_cost_korea 50000 8000 (55/10) 400 40 none 10 none
        30000).final_cost =
      pyInt (((estimate_ad_cost_korea 50000 8000 (55/10) 400 40 none 10 none
          30000).global_final_cost : ℚ) *
        (estimate_ad_cost_korea 50000 8000 (55/10) 400 40 none 10 none
          30000).korea_adjustment) ∧
    (estimate_ad_cost_korea 50000 8000 (55/10) 400 40 none 10 none
        30000).korea_adjustment =
      (if (50000 : ℚ) < 100000 then 85/100 else 75/100) :=
  C7_cost_range 50000 8000 (55/10) 400 40 10 30000 none none (by
    norm_num [estimate_ad_cost_korea, estimate_ad_cost_global, recentCpmCost, baseCostQ, tierBase,
      engagementStep, qualityStep, calculate_total_premium,
      calculate_channel_health, healthBands, calculate_growth_multiplier,
      calculate_consistency_multiplier, consistencyFallback,
      calculate_loyalty_multiplier, pyInt, pyRound3, roundHalfEven])

/-- The base cost is never below the tier floor. -/
theorem tierBase_le_baseCostQ (s v : ℚ) (rec : Option ℚ) (cpm : ℚ) :
    ((tierBase s : ℤ) : ℚ) ≤ baseCostQ s v rec cpm := by
  simp only [baseCostQ]
  split_ifs <;> exact le_max_right _ _

/-- Every tier floor is at least 350,000. -/
theorem tierBase_lb (s : ℚ) : (350000 : ℤ) ≤ tierBase s := by
  simp only [tierBase]
  split_ifs <;> norm_num

/-- The STEP 4 base cost of the code coincides with the claim-side formula
whenever the CPM rate is non-negative. -/
theorem baseCostQ_eq_spec (s v : ℚ) (rec : Option ℚ) (cpm : ℚ)
    (hcpm : 0 ≤ cpm) : baseCostQ s v rec cpm = specBaseCost s v rec cpm := by
  have htf := tierBase_eq_specTierFloor s
  have htfnn : (0 : ℚ) ≤ specTierFloor s :=
    le_trans (by norm_num) (specTierFloor_lb s)
  simp only [baseCostQ, recentCpmCost, specBaseCost, htf]
  rcases rec with _ | r
  · simp
  · by_cases hr : 0 < r
    · simp only [if_pos hr]
      by_cases hpos : 0 < r / 1000 * cpm
      · rw [if_pos hpos, max_assoc]
      · rw [if_neg hpos]
        have h0 : r / 1000 * cpm = 0 := by
          rcases lt_or_eq_of_le hcpm with h | h
          · exact absurd (by positivity) hpos
          · rw [← h, mul_zero]
        rw [h0, max_eq_right htfnn]
    · simp only [if_neg hr]
      simp

set_option linter.unusedVariables false in
/-- C3: for every well-formed non-negative input, the base cost of the global estimator is the maximum of the CPM cost avgViews/1000*cpmRate, the recent
CPM cost (included only when the 90-day views are present and positive) and
the fixed tier floor keyed by subscriber bracket, and the final cost is
floor(baseCost * engagementRateMultiplier * qualityMultiplier). -/
theorem C3_global_base_and_final (s v er l c cpm : ℚ) (rec : Option ℚ)
    (hs : 0 ≤ s) (hv : 0 ≤ v) (hl : 0 ≤ l) (hc : 0 ≤ c) (hcpm : 0 ≤ cpm)
    (hrec : ∀ r ∈ rec, 0 ≤ r) :
    (estimate_ad_cost_global s v er l c rec cpm).base_cost_cpm =
      pyInt (v / 1000 * cpm) ∧
    (estimate_ad_cost_global s v er l c rec cpm).base_cost =
      ⌊specBaseCost s v rec cpm⌋ ∧
    ((estimate_ad_cost_global s v er l c rec cpm).tier_base : ℚ) =
      specTierFloor s ∧
    (estimate_ad_cost_global s v er l c rec cpm).final_cost =
      ⌊specBaseCost s v rec cpm *
        ((estimate_ad_cost_global s v er l c rec cpm).engagement_multiplier *
          (estimate_ad_cost_global s v er l c rec cpm).quality_multiplier)⌋ := by
  have htb : (0 : ℚ) ≤ ((tierBase s : ℤ) : ℚ) := by
    exact_mod_cast le_trans (by norm_num : (0 : ℤ) ≤ 350000) (tierBase_lb s)
  have hbpos : (0 : ℚ) ≤ baseCostQ s v rec cpm :=
    le_trans htb (tierBase_le_baseCostQ s v rec cpm)
  have hmul : (0 : ℚ) ≤ (engagementStep er).1 * (qualityStep l c).1 :=
    mul_nonneg (le_trans (by norm_num) (engagementStep_lb er))
      (le_trans (by norm_num) (qualityStep_lb l c))
  refine ⟨rfl, ?_, tierBase_eq_specTierFloor s, ?_⟩
  · have hdef : (estimate_ad_cost_global s v er l c rec cpm).base_cost =
        pyInt (baseCostQ s v rec cpm) := rfl
    rw [hdef, pyInt_eq_floor hbpos, baseCostQ_eq_spec s v rec cpm hcpm]
  · have hdef : (estimate_ad_cost_global s v er l c rec cpm).final_cost =
        pyInt (baseCostQ s v rec cpm *
          ((engagementStep er).1 * (qualityStep l c).1)) := rfl
    rw [hdef, pyInt_eq_floor (mul_nonneg hbpos hmul),
      baseCostQ_eq_spec s v rec cpm hcpm]
    rfl

/-- Witness for C3 at a concrete input with 90-day data present. -/
theorem C3_global_base_and_final_witness :
    (estimate_ad_cost_global 50000 8000 (55/10) 400 40 (some 20000)
        30000).base_cost_cpm = pyInt ((8000 : ℚ) / 1000 * 30000) ∧
    (estimate_ad_cost_global 50000 8000 (55/10) 400 40 (some 20000)
        30000).base_cost = ⌊specBaseCost 50000 8000 (some 20000) 30000⌋ ∧
    ((estimate_ad_cost_global 50000 8000 (55/10) 400 40 (some 20000)
        30000).tier_base : ℚ) = specTierFloor 50000 ∧
    (estimate_ad_cost_global 50000 8000 (55/10) 400 40 (some 20000)
        30000).final_cost =
      ⌊specBaseCost 50000 8000 (some 20000) 30000 *
        ((estimate_ad_cost_global 50000 8000 (55/10) 400 40 (some 20000)
            30000).engagement_multiplier *
          (estimate_ad_cost_global 50000 8000 (55/10) 400 40 (some 20000)
            30000).quality_multiplier)⌋ :=
  C3_global_base_and_final 50000 8000 (55/10) 400 40 30000 (some 20000)
    (by norm_num) (by norm_num) (by norm_num) (by norm_num) (by norm_num)
    (by
      intro r hr
      simp only [Option.mem_def, Option.some.injEq] at hr
      subst hr
      norm_num)

/-- C2 (counterexample): at the worked scenario (subscriberCount=50,000,
avgViews=8,000, avgLikes=400, avgComments=40, engagementRate=5.5,
cpm=30,000, no 90-day data, default videoCount=10 and no channel age) the
regional final cost of the code is 2,131,800, not the claimed 2,244,000, and the
premium composite is 1.045, not 1.10: the default videoCount of 10 puts the
consistency factor in the below-50-videos band (0.95). -/
theorem C2_counterexample :
    (estimate_ad_cost_korea 50000 8000 (55/10) 400 40 none 10 none
        30000).final_cost ≠ 2244000 ∧
    (estimate_ad_cost_korea 50000 8000 (55/10) 400 40 none 10 none
        30000).channel_premium_multiplier ≠ 11/10 := by
  constructor <;>
    norm_num [estimate_ad_cost_korea, estimate_ad_cost_global, recentCpmCost,
      baseCostQ, tierBase, engagementStep, qualityStep, calculate_total_premium,
      calculate_channel_health, healthBands, calculate_growth_multiplier,
      calculate_consistency_multiplier, consistencyFallback,
      calculate_loyalty_multiplier, pyInt, pyRound3, roundHalfEven]

/-- C2 (amended): at the worked scenario the code yields baseCostCpm=240,000,
tierFloor=2,000,000, baseCost=2,000,000, finalEngagementMultiplier=1.2 and
global-stage finalCost=2,400,000 as claimed, but the premium composite is
1.045 (health 1.0 × growth 1.0 × consistency 0.95 for the default 10 videos
× loyalty 1.10), so the premium-adjusted global cost is 2,508,000,
regionAdjustment=0.85, finalCost=2,131,800, minCost=1,812,030 and
maxCost=2,451,570. -/
theorem C2_amended_values :
    (estimate_ad_cost_global 50000 8000 (55/10) 400 40 none
        30000).base_cost_cpm = 240000 ∧
    (estimate_ad_cost_global 50000 8000 (55/10) 400 40 none
        30000).tier_base = 2000000 ∧
    (estimate_ad_cost_global 50000 8000 (55/10) 400 40 none
        30000).base_cost = 2000000 ∧
    (estimate_ad_cost_global 50000 8000 (55/10) 400 40 none
        30000).final_engagement_multiplier = 12/10 ∧
    (estimate_ad_cost_global 50000 8000 (55/10) 400 40 none
        30000).final_cost = 2400000 ∧
    (estimate_ad_cost_korea 50000 8000 (55/10) 400 40 none 10 none
        30000).channel_premium_multiplier = 1045/1000 ∧
    (estimate_ad_cost_korea 50000 8000 (55/10) 400 40 none 10 none
        30000).korea_adjustment = 85/100 ∧
    (estimate_ad_cost_korea 50000 8000 (55/10) 400 40 none 10 none
        30000).global_final_cost = 2508000 ∧
    (estimate_ad_cost_korea 50000 8000 (55/10) 400 40 none 10 none
        30000).final_cost = 2131800 ∧
    (estimate_ad_cost_korea 50000 8000 (55/10) 400 40 none 10 none
        30000).min_cost = 1812030 ∧
    (estimate_ad_cost_korea 50000 8000 (55/10) 400 40 none 10 none
        30000).max_cost = 2451570 := by
  refine ⟨?_, ?_, ?_, ?_, ?_, ?_, ?_, ?_, ?_, ?_, ?_⟩ <;>
    norm_num [estimate_ad_cost_korea, estimate_ad_cost_global, recentCpmCost,
      baseCostQ, tierBase, engagementStep, qualityStep, calculate_total_premium,
      calculate_channel_health, healthBands, calculate_growth_multiplier,
      calculate_consistency_multiplier, consistencyFallback,
      calculate_loyalty_multiplier, pyInt, pyRound3, roundHalfEven]

/-- C10: the component fields of the regional record (`base_cost_cpm`,
`recent_cpm_cost`, `tier_base`, `base_cost`, `cpm_used`) are the
global-stage values scaled by the region adjustment and truncated, so the
reported base cost is not the base cost the global stage actually
multiplied; at a concrete input the final cost cannot be re-derived as the
reported base cost times the reported multipliers. -/
theorem C10_reported_components :
    (∀ s v er l c vc cpm : ℚ, ∀ rec age : Option ℚ,
      (estimate_ad_cost_korea s v er l c rec vc age cpm).base_cost_cpm =
        pyInt (((estimate_ad_cost_global s v er l c rec cpm).base_cost_cpm : ℚ) *
          (estimate_ad_cost_korea s v er l c rec vc age cpm).korea_adjustment) ∧
      (estimate_ad_cost_korea s v er l c rec vc age cpm).recent_cpm_cost =
        pyInt (((estimate_ad_cost_global s v er l c rec cpm).recent_cpm_cost : ℚ) *
          (estimate_ad_cost_korea s v er l c rec vc age cpm).korea_adjustment) ∧
      (estimate_ad_cost_korea s v er l c rec vc age cpm).tier_base =
        pyInt (((estimate_ad_cost_global s v er l c rec cpm).tier_base : ℚ) *
          (estimate_ad_cost_korea s v er l c rec vc age cpm).korea_adjustment) ∧
      (estimate_ad_cost_korea s v er l c rec vc age cpm).base_cost =
        pyInt (((estimate_ad_cost_global s v er l c rec cpm).base_cost : ℚ) *
          (estimate_ad_cost_korea s v er l c rec vc age cpm).korea_adjustment) ∧
      (estimate_ad_cost_korea s v er l c rec vc age cpm).cpm_used =
        pyInt ((estimate_ad_cost_global s v er l c rec cpm).cpm_used *
          (estimate_ad_cost_korea s v er l c rec vc age cpm).korea_adjustment)) ∧
    (estimate_ad_cost_korea 5000 100001 0 0 0 none 10 none 30000).base_cost ≠
      (estimate_ad_cost_global 5000 100001 0 0 0 none 30000).base_cost ∧
    (estimate_ad_cost_korea 5000 100001 0 0 0 none 10 none 30000).final_cost ≠
      ⌊((estimate_ad_cost_korea 5000 100001 0 0 0 none 10 none
          30000).base_cost : ℚ) *
        (estimate_ad_cost_korea 5000 100001 0 0 0 none 10 none
          30000).final_engagement_multiplier *
        (estimate_ad_cost_korea 5000 100001 0 0 0 none 10 none
          30000).channel_premium_multiplier⌋ := by
  refine ⟨fun s v er l c vc cpm rec age => ⟨rfl, rfl, rfl, rfl, rfl⟩, ?_, ?_⟩ <;>
    norm_num [estimate_ad_cost_korea, estimate_ad_cost_global, recentCpmCost,
      baseCostQ, tierBase, engagementStep, qualityStep, calculate_total_premium,
      calculate_channel_health, healthBands, calculate_growth_multiplier,
      calculate_consistency_multiplier, consistencyFallback,
      calculate_loyalty_multiplier, pyInt, pyRound3, roundHalfEven]

/-- Band analysis of the health table at any non-negative ratio: bounded
multiplier and membership in exactly one of the eight disjoint intervals. -/
theorem healthBands_spec (ρ : ℚ) (hρ : 0 ≤ ρ) :
    (3/10 ≤ (healthBands ρ).multiplier ∧ (healthBands ρ).multiplier ≤ 12/10) ∧
    0 ≤ (healthBands ρ).ratio ∧
    ((30 ≤ (healthBands ρ).ratio ∧ (healthBands ρ).multiplier = 12/10 ∧
        (healthBands ρ).level = "초건강") ∨
      (20 ≤ (healthBands ρ).ratio ∧ (healthBands ρ).ratio < 30 ∧
        (healthBands ρ).multiplier = 11/10 ∧
        (healthBands ρ).level = "매우 건강") ∨
      (15 ≤ (healthBands ρ).ratio ∧ (healthBands ρ).ratio < 20 ∧
        (healthBands ρ).multiplier = 1 ∧ (healthBands ρ).level = "건강") ∨
      (10 ≤ (healthBands ρ).ratio ∧ (healthBands ρ).ratio < 15 ∧
        (healthBands ρ).multiplier = 1 ∧ (healthBands ρ).level = "정상") ∨
      (7 ≤ (healthBands ρ).ratio ∧ (healthBands ρ).ratio < 10 ∧
        (healthBands ρ).multiplier = 8/10 ∧
        (healthBands ρ).level = "약간 약화") ∨
      (5 ≤ (healthBands ρ).ratio ∧ (healthBands ρ).ratio < 7 ∧
        (healthBands ρ).multiplier = 7/10 ∧ (healthBands ρ).level = "약화") ∨
      (3 ≤ (healthBands ρ).ratio ∧ (healthBands ρ).ratio < 5 ∧
        (healthBands ρ).multiplier = 5/10 ∧
        (healthBands ρ).level = "죽어감") ∨
      (0 ≤ (healthBands ρ).ratio ∧ (healthBands ρ).ratio < 3 ∧
        (healthBands ρ).multiplier = 3/10 ∧
        (healthBands ρ).level = "죽음")) := by
  simp only [healthBands]
  split_ifs with h1 h2 h3 h4 h5 h6 h7
  · exact ⟨⟨by norm_num, by norm_num⟩, hρ, Or.inl ⟨h1, rfl, rfl⟩⟩
  · exact ⟨⟨by norm_num, by norm_num⟩, hρ,
      Or.inr (Or.inl ⟨h2, not_le.mp h1, rfl, rfl⟩)⟩
  · exact ⟨⟨by norm_num, by norm_num⟩, hρ,
      Or.inr (Or.inr (Or.inl ⟨h3, not_le.mp h2, rfl, rfl⟩))⟩
  · exact ⟨⟨by norm_num, by norm_num⟩, hρ,
      Or.inr (Or.inr (Or.inr (Or.inl ⟨h4, not_le.mp h3, rfl, rfl⟩)))⟩
  · exact ⟨⟨by norm_num, by norm_num⟩, hρ,
      Or.inr (Or.inr (Or.inr (Or.inr (Or.inl
        ⟨h5, not_le.mp h4, rfl, rfl⟩))))⟩
  · exact ⟨⟨by norm_num, by norm_num⟩, hρ,
      Or.inr (Or.inr (Or.inr (Or.inr (Or.inr (Or.inl
        ⟨h6, not_le.mp h5, rfl, rfl⟩)))))⟩
  · exact ⟨⟨by norm_num, by norm_num⟩, hρ,
      Or.inr (Or.inr (Or.inr (Or.inr (Or.inr (Or.inr (Or.inl
        ⟨h7, not_le.mp h6, rfl, rfl⟩))))))⟩
  · exact ⟨⟨by norm_num, by norm_num⟩, hρ,
      Or.inr (Or.inr (Or.inr (Or.inr (Or.inr (Or.inr (Or.inr
        ⟨hρ, not_le.mp h7, rfl, rfl⟩))))))⟩

/-- C4: for all non-negative inputs the channel-health multiplier lies in
[0.3, 1.2]; the eight ≥-threshold bands at ratio 30, 20, 15, 10, 7, 5, 3
partition the non-negative ratios into disjoint exhaustive intervals (so a
ratio exactly on a threshold lands in the upper band, as the concrete
threshold evaluations show); and a zero subscriber count forces ratio 0 and
the lowest band (multiplier 0.3). -/
theorem C4_health_partition :
    (∀ s v : ℚ, 0 ≤ s → 0 ≤ v →
      (3/10 ≤ (calculate_channel_health s v).multiplier ∧
        (calculate_channel_health s v).multiplier ≤ 12/10) ∧
      0 ≤ (calculate_channel_health s v).ratio ∧
      ((30 ≤ (calculate_channel_health s v).ratio ∧
          (calculate_channel_health s v).multiplier = 12/10 ∧
          (calculate_channel_health s v).level = "초건강") ∨
        (20 ≤ (calculate_channel_health s v).ratio ∧
          (calculate_channel_health s v).ratio < 30 ∧
          (calculate_channel_health s v).multiplier = 11/10 ∧
          (calculate_channel_health s v).level = "매우 건강") ∨
        (15 ≤ (calculate_channel_health s v).ratio ∧
          (calculate_channel_health s v).ratio < 20 ∧
          (calculate_channel_health s v).multiplier = 1 ∧
          (calculate_channel_health s v).level = "건강") ∨
        (10 ≤ (calculate_channel_health s v).ratio ∧
          (calculate_channel_health s v).ratio < 15 ∧
          (calculate_channel_health s v).multiplier = 1 ∧
          (calculate_channel_health s v).level = "정상") ∨
        (7 ≤ (calculate_channel_health s v).ratio ∧
          (calculate_channel_health s v).ratio < 10 ∧
          (calculate_channel_health s v).multiplier = 8/10 ∧
          (calculate_channel_health s v).level = "약간 약화") ∨
        (5 ≤ (calculate_channel_health s v).ratio ∧
          (calculate_channel_health s v).ratio < 7 ∧
          (calculate_channel_health s v).multiplier = 7/10 ∧
          (calculate_channel_health s v).level = "약화") ∨
        (3 ≤ (calculate_channel_health s v).ratio ∧
          (calculate_channel_health s v).ratio < 5 ∧
          (calculate_channel_health s v).multiplier = 5/10 ∧
          (calculate_channel_health s v).level = "죽어감") ∨
        (0 ≤ (calculate_channel_health s v).ratio ∧
          (calculate_channel_health s v).ratio < 3 ∧
          (calculate_channel_health s v).multiplier = 3/10 ∧
          (calculate_channel_health s v).level = "죽음"))) ∧
    ((calculate_channel_health 100 30).multiplier = 12/10 ∧
      (calculate_channel_health 100 30).level = "초건강" ∧
      (calculate_channel_health 100 20).multiplier = 11/10 ∧
      (calculate_channel_health 100 20).level = "매우 건강" ∧
      (calculate_channel_health 100 15).multiplier = 1 ∧
      (calculate_channel_health 100 15).level = "건강" ∧
      (calculate_channel_health 100 10).multiplier = 1 ∧
      (calculate_channel_health 100 10).level = "정상" ∧
      (calculate_channel_health 100 7).multiplier = 8/10 ∧
      (calculate_channel_health 100 7).level = "약간 약화" ∧
      (calculate_channel_health 100 5).multiplier = 7/10 ∧
      (calculate_channel_health 100 5).level = "약화" ∧
      (calculate_channel_health 100 3).multiplier = 5/10 ∧
      (calculate_channel_health 100 3).level = "죽어감") ∧
    (∀ v : ℚ, (calculate_channel_health 0 v).ratio = 0 ∧
      (calculate_channel_health 0 v).multiplier = 3/10 ∧
      (calculate_channel_health 0 v).level = "죽음") := by
  refine ⟨?_, ?_, ?_⟩
  · intro s v hs hv
    have hr : 0 ≤ (if s = 0 then (0 : ℚ) else v / s * 100) := by
      split_ifs with h
      · exact le_refl 0
      · have hs2 : 0 < s := lt_of_le_of_ne hs (Ne.symm h)
        positivity
    exact healthBands_spec _ hr
  · norm_num [calculate_channel_health, healthBands]
  · intro v
    refine ⟨?_, ?_, ?_⟩ <;> norm_num [calculate_channel_health, healthBands]

/-- Witness for C4 at the worked-example channel
(ratio 16%, the healthy band). -/
theorem C4_health_partition_witness :
    (3/10 ≤ (calculate_channel_health 50000 8000).multiplier ∧
      (calculate_channel_health 50000 8000).multiplier ≤ 12/10) ∧
    0 ≤ (calculate_channel_health 50000 8000).ratio :=
  ⟨(C4_health_partition.1 50000 8000 (by norm_num) (by norm_num)).1,
    (C4_health_partition.1 50000 8000 (by norm_num) (by norm_num)).2.1⟩

/-- C5: for every non-negative subscriber count, the tier classifier
returns one of the five tiers; the classifier is the ascending-bracket
lookup `tierTable ∘ tierIndex` with `tierIndex` monotone (so the tier is
non-decreasing in the subscriber count); the five tier labels are pairwise
distinct; and each boundary value belongs to the upper bracket. -/
theorem C5_tier_classifier :
    (∀ s : ℚ, 0 ≤ s →
      get_influencer_tier s ∈
        [tierTable 0, tierTable 1, tierTable 2, tierTable 3, tierTable 4]) ∧
    (∀ s : ℚ, get_influencer_tier s = tierTable (tierIndex s)) ∧
    (∀ s t : ℚ, s ≤ t → tierIndex s ≤ tierIndex t) ∧
    [tierTable 0, tierTable 1, tierTable 2, tierTable 3, tierTable 4].Nodup ∧
    (get_influencer_tier 9999 = ("나노 (Nano)", "1K-10K") ∧
      get_influencer_tier 10000 = ("마이크로 (Micro)", "10K-100K") ∧
      get_influencer_tier 99999 = ("마이크로 (Micro)", "10K-100K") ∧
      get_influencer_tier 100000 = ("미드티어 (Mid-tier)", "100K-500K") ∧
      get_influencer_tier 499999 = ("미드티어 (Mid-tier)", "100K-500K") ∧
      get_influencer_tier 500000 = ("매크로 (Macro)", "500K-1M") ∧
      get_influencer_tier 999999 = ("매크로 (Macro)", "500K-1M") ∧
      get_influencer_tier 1000000 = ("메가 (Mega)", "1M+")) := by
  refine ⟨?_, ?_, ?_, ?_, ?_⟩
  · intro s _
    simp only [get_influencer_tier, tierTable]
    split_ifs <;> simp
  · intro s
    simp only [get_influencer_tier, tierIndex]
    split_ifs <;> rfl
  · intro s t hst
    simp only [tierIndex]
    split_ifs <;> try norm_num
    all_goals linarith
  · simp [tierTable]
  · refine ⟨?_, ?_, ?_, ?_, ?_, ?_, ?_, ?_⟩ <;> norm_num [get_influencer_tier]

/-- Witness for C5 at the worked-example subscriber count. -/
theorem C5_tier_classifier_witness :
    get_influencer_tier 50000 ∈
      [tierTable 0, tierTable 1, tierTable 2, tierTable 3, tierTable 4] ∧
    tierIndex 10000 ≤ tierIndex 500000 :=
  ⟨C5_tier_classifier.1 50000 (by norm_num),
    C5_tier_classifier.2.2.1 10000 500000 (by norm_num)⟩

/-- C8: whatever the external narrative generator does — raising an
exception or returning any text, well-formed or not — the brand-safety
adapter never lets an exception reach its caller: an exception becomes the
error payload carrying its message, returned text has any code fence
stripped before parsing, a successful parse yields the report, and a parse
failure becomes the decode-error payload.  The cost estimate is computed
upstream and is unaffected in every case. -/
theorem C8_adapter_never_raises (Report : Type)
    (parse : String → Option Report) (gen : GenOutcome) :
    ((∃ r, analyze_with_gemini Report parse gen = AnalysisResult.report r) ∨
      (∃ m, analyze_with_gemini Report parse gen =
        AnalysisResult.errorPayload m)) ∧
    (∀ m, gen = GenOutcome.raises m →
      analyze_with_gemini Report parse gen = AnalysisResult.errorPayload m) ∧
    (∀ s r, gen = GenOutcome.text s →
      parse (stripCodeFence s).trim = some r →
      analyze_with_gemini Report parse gen = AnalysisResult.report r) ∧
    (∀ s, gen = GenOutcome.text s →
      parse (stripCodeFence s).trim = none →
      analyze_with_gemini Report parse gen =
        AnalysisResult.errorPayload jsonErrorMsg) := by
  refine ⟨?_, ?_, ?_, ?_⟩
  · rcases gen with s | m
    · rcases h : parse (stripCodeFence s).trim with _ | r
      · exact Or.inr ⟨jsonErrorMsg, by simp [analyze_with_gemini, h]⟩
      · exact Or.inl ⟨r, by simp [analyze_with_gemini, h]⟩
    · exact Or.inr ⟨m, rfl⟩
  · rintro m rfl
    rfl
  · rintro s r rfl h
    simp [analyze_with_gemini, h]
  · rintro s rfl h
    simp [analyze_with_gemini, h]

/-- Witness for C8: a generator exception surfaces as the error payload. -/
theorem C8_adapter_never_raises_witness :
    analyze_with_gemini Unit (fun _ => none) (GenOutcome.raises "boom") =
      AnalysisResult.errorPayload "boom" :=
  (C8_adapter_never_raises Unit (fun _ => none)
    (GenOutcome.raises "boom")).2.1 "boom" rfl

end Kobaco
